import Mathlib

/-!
# Verification of the PoseDiffusion spatial/frustum volume pipeline

Shallow embedding of `src/pose_diffusion/models/View_feature_extractor.py` and
`src/pose_diffusion/models/View_feature_extractor_net.py`.

Conventions:
* Python float arithmetic is modelled over `ℝ` (or `ℚ` where only rational
  constants occur); tensors are modelled as functions from index types to the
  scalar type.
* Fallible runtime behaviour (name resolution, tensor indexing) is modelled
  with `Except PyErr`.
* Two helper functions of the repository, `get_warp_coordinates` and
  `create_target_volume`, are referenced by the source but defined in no file
  of the repository; where a claim needs their behaviour they are modelled
  from the specification text and marked as such in their doc comments.
-/

namespace PoseDiffusion

/-! ## Runtime errors

Generic errors of the Python/torch runtime, no custom error type exists in
the sources. -/

/-- Errors raised by the (modelled) Python/torch runtime: an unbound global
name (`NameError`) or an out-of-range tensor index (`IndexError`). -/
inductive PyErr where
  | nameError (name : String)
  | indexError
  deriving DecidableEq, Repr

/-! ## `SpatialVolumeNet` configuration

From `SpatialVolumeNet.__init__`
(`View_feature_extractor.py` lines 14-34, identically
`View_feature_extractor_net.py` lines 194-214).  The numeric literals
`0.86603`, `0.5` and `1.5` are kept as exact rationals. -/

/-- `frustum_volume_length=0.86603  # sqrt(3)/2` (constructor default). -/
def frustum_volume_length : ℚ := 86603 / 100000

/-- `spatial_volume_length=0.5` (constructor default). -/
def spatial_volume_length : ℚ := 1 / 2

/-- `self.default_origin_depth = 1.5` (`__init__`, line 34). -/
def default_origin_depth : ℚ := 3 / 2

/-- `input_image_size=256` (constructor default). -/
def input_image_size : ℕ := 256

/-- `self.frustum_volume_size = self.input_image_size // 8` (line 30). -/
def frustum_volume_size : ℕ := input_image_size / 8

/-- `frustum_volume_depth=48` (constructor default). -/
def frustum_volume_depth : ℕ := 48

/-- `spatial_volume_size=32` (constructor default). -/
def spatial_volume_size : ℕ := 32

/-! ## Near/far planes of `construct_view_frustum_volume`

`View_feature_extractor.py` lines 97-98:

    near = torch.ones(B*TN,1,H,W, ...) * self.default_origin_depth - self.frustum_volume_length
    far  = torch.ones(B*TN,1,H,W, ...) * self.default_origin_depth + self.frustum_volume_length

Both are constant-filled `(B*TN, 1, H, W)` tensors. -/

/-- The `near` tensor of `construct_view_frustum_volume`: every entry is
`1 * default_origin_depth - frustum_volume_length`. -/
def nearTensor (BTN H W : ℕ) :
    Fin BTN → Fin 1 → Fin H → Fin W → ℚ :=
  fun _ _ _ _ => 1 * default_origin_depth - frustum_volume_length

/-- The `far` tensor of `construct_view_frustum_volume`: every entry is
`1 * default_origin_depth + frustum_volume_length`. -/
def farTensor (BTN H W : ℕ) :
    Fin BTN → Fin 1 → Fin H → Fin W → ℚ :=
  fun _ _ _ _ => 1 * default_origin_depth + frustum_volume_length

/-! ## Torch integer-tensor indexing (`poses[target_indices]`)

`View_feature_extractor.py` lines 100-102:

    target_indices = target_indices.view(B*TN)
    poses_ = poses[target_indices]
    Ks_ = Ks[target_indices]

Torch advanced indexing with an integer index tensor: an entry `i` is valid
iff `-N ≤ i < N` (negative indices wrap), otherwise the runtime raises a
generic index error.  The source performs no validation of its own. -/

/-- One torch integer index into a length-`N` table: valid iff `-N ≤ i < N`,
negative indices select from the end; invalid indices raise the runtime's
generic `IndexError`. -/
def torchIndex {α : Type} (table : List α) (i : ℤ) : Except PyErr α :=
  if h : 0 ≤ i ∧ i < (table.length : ℤ) then
    .ok (table.get ⟨i.toNat, by omega⟩)
  else if h2 : -(table.length : ℤ) ≤ i ∧ i < 0 then
    .ok (table.get ⟨(i + table.length).toNat, by omega⟩)
  else
    .error .indexError

/-- `poses[target_indices]`: gather the rows of `poses` at every entry of the
flattened index tensor, with torch index semantics.  Entries are resolved in
order; the first invalid entry raises. -/
def torchGather {α : Type} (table : List α) : List ℤ → Except PyErr (List α)
  | [] => .ok []
  | i :: rest => do
    let r ← torchIndex table i
    let rs ← torchGather table rest
    pure (r :: rs)

/-- The pose/intrinsics selection step of `construct_view_frustum_volume`
(lines 100-102): gathers both the `poses` and `Ks` tables at the flattened
target indices. -/
def selectPosesKs {α β : Type} (poses : List α) (Ks : List β)
    (target_indices : List ℤ) : Except PyErr (List α × List β) := do
  let poses_ ← torchGather poses target_indices
  let Ks_ ← torchGather Ks target_indices
  pure (poses_, Ks_)

/-! ## Azimuth normalization (`_init_multiview`)

`View_feature_extractor.py` line 174 (identically line 494):

    azs = (azs + np.pi) % (np.pi * 2) - np.pi

NumPy `%` on floats is the floored modulo `a - b * floor(a / b)`. -/

/-- NumPy floating-point `a % b`: `a - b * ⌊a / b⌋` (floored modulo). -/
noncomputable def npFmod (a b : ℝ) : ℝ := a - b * ⌊a / b⌋

/-- The azimuth normalization `a ↦ ((a + π) % (2π)) - π` applied to every
loaded azimuth in `_init_multiview` (line 174). -/
noncomputable def normalizeAzimuth (a : ℝ) : ℝ :=
  npFmod (a + Real.pi) (Real.pi * 2) - Real.pi

/-! ## Viewpoint embedding (`get_viewpoint_embedding`)

`View_feature_extractor.py` lines 178-196 (identically lines 498-516).  The
stored azimuth table always has `view_num ≥ 1` entries (the method reads
`self.azimuth[0]`), so the view count is modelled as `n + 1`.  The method
returns a `(B, N, 4)` tensor; an entry is modelled as a 4-tuple of reals. -/

/-- NumPy `np.deg2rad`. -/
noncomputable def deg2rad (d : ℝ) : ℝ := d * (Real.pi / 180)

/-- `SyncMultiviewDiffusion.get_viewpoint_embedding` (lines 178-196): entry
`(b, i)` of the returned `(B, N, 4)` tensor, computed from the stored
azimuth table and the per-batch reference elevation.  Components:
`(d_e, sin d_a, cos d_a, d_z)` with `d_z = 0`. -/
noncomputable def get_viewpoint_embedding {B n : ℕ}
    (azimuth : Fin (n + 1) → ℝ) (elevation_ref : Fin B → ℝ) :
    Fin B → Fin (n + 1) → ℝ × ℝ × ℝ × ℝ :=
  fun b i =>
    let azimuth_input := azimuth 0
    let azimuth_target := azimuth i
    let elevation_input := -(elevation_ref b)
    let elevation_target := -(deg2rad 30)
    let d_e := elevation_target - elevation_input
    let d_a := azimuth_target - azimuth_input
    (d_e, Real.sin d_a, Real.cos d_a, 0)

/-! ## Global-name resolution (`NameError` behaviour)

`get_warp_coordinates` (referenced at `View_feature_extractor.py` line 70 and
`View_feature_extractor_net.py` line 250) and `create_target_volume`
(referenced at lines 103 / 283) are defined in no file of the repository.
CPython resolves a global name when the referencing expression is evaluated
and raises `NameError` if it is unbound.  The models below replay the global
references of the two methods in source evaluation order against a module's
global-name table. -/

/-- Global names bound at module level in
`pose_diffusion/models/View_feature_extractor.py`: the `import` lines
(lines 1-12) and the two top-level class statements. -/
def globalsViewFeatureExtractor : List String :=
  ["Path", "pl", "torch", "nn", "F", "np", "imsave", "LambdaLR", "tqdm",
   "NoisyTargetViewEncoder", "SpatialTime3DNet", "FrustumTV3DNet",
   "SpatialVolumeNet", "SyncMultiviewDiffusion"]

/-- Global names bound at module level in
`pose_diffusion/models/View_feature_extractor_net.py` (lines 1-2 imports and
the top-level class statements). -/
def globalsViewFeatureExtractorNet : List String :=
  ["torch", "nn", "Image2DResBlockWithTV", "NoisyTargetViewEncoder",
   "SpatialUpTimeBlock", "SpatialTimeBlock", "SpatialTime3DNet",
   "FrustumTVBlock", "FrustumTVUpBlock", "FrustumTV3DNet",
   "SpatialVolumeNet"]

/-- Global names bound at module level in
`src/.rsync/griddle_zoo_configs/griddle_zoo_configs_recons.py` (imports and
top-level assignments/defs). -/
def globalsGriddleZooConfigs : List String :=
  ["copy", "os", "ExperimentConfigGrid", "GriddleMode", "param_grid",
   "is_aws_cluster", "ExperimentConfig", "OmegaConf", "DEFAULT_STATS",
   "JOB_PARAMS", "EXPERIMENT_ROOT", "griddle_zoo_configs"]

/-- Resolve a global name against a module's global table: `NameError` if
unbound. -/
def resolveName (env : List String) (name : String) : Except PyErr Unit :=
  if name ∈ env then .ok () else .error (.nameError name)

/-- Global references evaluated by one iteration of the view loop of
`construct_spatial_volume` (lines 64-73): `get_warp_coordinates` (line 70,
evaluated first) then `F` (line 71, `F.grid_sample`).  The encoder call on
line 67 resolves only `self` attributes, not globals. -/
def spatialLoopBody (env : List String) : Except PyErr Unit := do
  resolveName env "get_warp_coordinates"
  resolveName env "F"

/-- Python `for ni in range(N)` over a loop body that performs the same
effect every iteration: run the body, then the remaining `N - 1`
iterations. -/
def pythonRangeLoop (body : Except PyErr Unit) : ℕ → Except PyErr Unit
  | 0 => .ok ()
  | n + 1 => do
    body
    pythonRangeLoop body n

/-- Global references of `SpatialVolumeNet.construct_spatial_volume`
(lines 36-80) in evaluation order: `torch` for the vertex grid
(lines 49-52), the view loop over `range(N)` (lines 64-73), then `torch`
for the final stack (line 75).  Method calls on `self` and on tensors
resolve attributes, not globals. -/
def construct_spatial_volume_names (env : List String) (N : ℕ) :
    Except PyErr Unit := do
  resolveName env "torch"
  pythonRangeLoop (spatialLoopBody env) N
  resolveName env "torch"

/-- Global references of `SpatialVolumeNet.construct_view_frustum_volume`
(lines 82-113) in evaluation order: `torch` for `near`/`far` (lines 97-98),
`create_target_volume` (line 103), `F` (`F.grid_sample`, line 108), and
`torch` (`torch.arange`, line 110). -/
def construct_view_frustum_volume_names (env : List String) :
    Except PyErr Unit := do
  resolveName env "torch"
  resolveName env "create_target_volume"
  resolveName env "F"
  resolveName env "torch"

/-! ## Shape semantics of `FrustumTV3DNet`

`View_feature_extractor_net.py` lines 127-189.  The shape model tracks
tensor shapes through the forward pass; a torch shape error (invalid
convolution input, failed broadcast, channel mismatch) is `none`. -/

/-- Shape of a 5-d tensor `(B, C, D, H, W)`. -/
structure Shape5 where
  b : ℕ
  c : ℕ
  d : ℕ
  h : ℕ
  w : ℕ
  deriving DecidableEq, Repr

/-- Spatial output size of `nn.Conv3d(·, ·, 3, stride=s, padding=1)` along
one axis: `(n + 2·1 - 3) / s + 1`, defined when the padded input covers the
kernel (`n ≥ 1`) and the stride is positive. -/
def convOut (n s : ℕ) : Option ℕ :=
  if 1 ≤ n ∧ 1 ≤ s then some ((n - 1) / s + 1) else none

/-- Spatial output size of
`nn.ConvTranspose3d(·, ·, kernel_size=3, padding=1, output_padding=1,
stride=2)` along one axis: `(n-1)·2 - 2·1 + 3 + 1 = 2n`, for `n ≥ 1`. -/
def convTOut (n : ℕ) : Option ℕ :=
  if 1 ≤ n then some (2 * n) else none

/-- Torch broadcasting of one pair of dimension sizes: equal sizes, or one
of them is `1`. -/
def bcastDim (a b : ℕ) : Option ℕ :=
  if a = b then some a
  else if a = 1 then some b
  else if b = 1 then some a
  else none

/-- Torch broadcasting of two 5-d shapes (element-wise `+`). -/
def bcastShape (s t : Shape5) : Option Shape5 := do
  let b ← bcastDim s.b t.b
  let c ← bcastDim s.c t.c
  let d ← bcastDim s.d t.d
  let h ← bcastDim s.h t.h
  let w ← bcastDim s.w t.w
  pure ⟨b, c, d, h, w⟩

/-- Shape of `nn.Conv3d(cin, cout, 3, stride=s, padding=1)` applied to `x`:
requires the channel count to match. -/
def conv3dShape (cin cout s : ℕ) (x : Shape5) : Option Shape5 := do
  if x.c = cin then
    let d ← convOut x.d s
    let h ← convOut x.h s
    let w ← convOut x.w s
    pure ⟨x.b, cout, d, h, w⟩
  else none

/-- Shape of the transposed convolution of `FrustumTVUpBlock` /
`SpatialUpTimeBlock` (`kernel_size=3, padding=1, output_padding=1,
stride=2`). -/
def convT3dShape (cin cout : ℕ) (x : Shape5) : Option Shape5 := do
  if x.c = cin then
    let d ← convTOut x.d
    let h ← convTOut x.h
    let w ← convTOut x.w
    pure ⟨x.b, cout, d, h, w⟩
  else none

/-- Shape of `nn.GroupNorm(8, c)`: identity on shapes, defined when the
channel count is divisible by the 8 groups. -/
def groupNormShape (c : ℕ) (x : Shape5) : Option Shape5 :=
  if x.c = c ∧ c % 8 = 0 then some x else none

/-- Shape of the embedding convolutions `nn.Conv3d(cin, cout, 1, 1)`
(kernel 1, stride 1, no padding): spatial sizes unchanged (`n ≥ 1`). -/
def conv3dShape1x1 (cin cout : ℕ) (x : Shape5) : Option Shape5 :=
  if x.c = cin ∧ 1 ≤ x.d ∧ 1 ≤ x.h ∧ 1 ≤ x.w then
    some ⟨x.b, cout, x.d, x.h, x.w⟩
  else none

/-- `FrustumTVBlock.forward` (lines 137-139) at shape level:
`x + t_conv(t) + v_conv(v)` broadcasts the `(B, x_dim, 1, 1, 1)` embeddings
onto `x`, then GroupNorm, SiLU and a stride-`s` convolution. -/
def frustumTVBlockShape (x_dim t_dim v_dim out_dim s : ℕ)
    (x te ve : Shape5) : Option Shape5 := do
  let t1 ← conv3dShape1x1 t_dim x_dim te
  let v1 ← conv3dShape1x1 v_dim x_dim ve
  let x1 ← bcastShape x t1
  let x2 ← bcastShape x1 v1
  let x3 ← groupNormShape x_dim x2
  conv3dShape x_dim out_dim s x3

/-- `FrustumTVUpBlock.forward` (lines 151-153) at shape level. -/
def frustumTVUpBlockShape (x_dim t_dim v_dim out_dim : ℕ)
    (x te ve : Shape5) : Option Shape5 := do
  let t1 ← conv3dShape1x1 t_dim x_dim te
  let v1 ← conv3dShape1x1 v_dim x_dim ve
  let x1 ← bcastShape x t1
  let x2 ← bcastShape x1 v1
  let x3 ← groupNormShape x_dim x2
  convT3dShape x_dim out_dim x3

/-- Insertion into a Python `dict` modelled as an association list: a later
binding for an existing key overwrites it, a new key is appended. -/
def dictInsert {α : Type} (k : ℕ) (v : α) (d : List (ℕ × α)) :
    List (ℕ × α) :=
  if d.any (fun p => p.1 = k) then
    d.map (fun p => if p.1 = k then (k, v) else p)
  else d ++ [(k, v)]

/-- The Python dict literal `{w: x0, w//2: x1, w//4: x2, w//8: x3}`
(line 189), built by inserting the four bindings in order. -/
def pyramidDict {α : Type} (w : ℕ) (x0 x1 x2 x3 : α) : List (ℕ × α) :=
  dictInsert (w / 8) x3 (dictInsert (w / 4) x2
    (dictInsert (w / 2) x1 (dictInsert w x0 [])))

/-- `FrustumTV3DNet.forward` (lines 174-189) at shape level.  `x` is the
input volume shape, `tdim`/`vdim` the channel counts of the `(B, DT)` /
`(B, DV)` embeddings reshaped to `(B, DT, 1, 1, 1)` (lines 175-178).
Returns the dict of the four pyramid levels keyed by spatial width
(line 189). -/
def frustumTV3DNetShape (in_dim t_dim v_dim : ℕ) (dims : ℕ × ℕ × ℕ × ℕ)
    (x : Shape5) (tdim vdim : ℕ) : Option (List (ℕ × Shape5)) := do
  let (d0, d1, d2, d3) := dims
  let te : Shape5 := ⟨x.b, tdim, 1, 1, 1⟩
  let ve : Shape5 := ⟨x.b, vdim, 1, 1, 1⟩
  let x0 ← conv3dShape in_dim d0 1 x
  let x1a ← frustumTVBlockShape d0 t_dim v_dim d1 2 x0 te ve
  let x1 ← frustumTVBlockShape d1 t_dim v_dim d1 1 x1a te ve
  let x2a ← frustumTVBlockShape d1 t_dim v_dim d2 2 x1 te ve
  let x2 ← frustumTVBlockShape d2 t_dim v_dim d2 1 x2a te ve
  let x3a ← frustumTVBlockShape d2 t_dim v_dim d3 2 x2 te ve
  let x3 ← frustumTVBlockShape d3 t_dim v_dim d3 1 x3a te ve
  let u2 ← frustumTVUpBlockShape d3 t_dim v_dim d2 x3 te ve
  let x2f ← bcastShape u2 x2
  let u1 ← frustumTVUpBlockShape d2 t_dim v_dim d1 x2f te ve
  let x1f ← bcastShape u1 x1
  let u0 ← frustumTVUpBlockShape d1 t_dim v_dim d0 x1f te ve
  let x0f ← bcastShape u0 x0
  pure (pyramidDict x.w x0f x1f x2f x3)

/-- The `frustum_volume_feats` network of the repository:
`FrustumTV3DNet(64, time_dim, view_dim, dims=(64, 128, 256, 512))`
(`SpatialVolumeNet.__init__`, line 23), at shape level. -/
def frustum_volume_feats_shape (t_dim v_dim : ℕ) (x : Shape5)
    (tdim vdim : ℕ) : Option (List (ℕ × Shape5)) :=
  frustumTV3DNetShape 64 t_dim v_dim (64, 128, 256, 512) x tdim vdim

/-! ## Value-level tensor model

Feature maps are total functions from (channel, spatial…) indices to `ℝ`;
spatial indices are integers, reads outside the live region are cropped to
`0` exactly where torch zero-padding applies.  Network weights are
structures of coefficient functions mirroring the `nn.Module` fields. -/

/-- A conditioning embedding vector (`(B, C)` tensors, one batch slot). -/
def Emb : Type := ℕ → ℝ

/-- A 2-d feature map, `(channel, y, x)`. -/
def Map2 : Type := ℕ → ℤ → ℤ → ℝ

/-- A 3-d feature volume, `(channel, z, y, x)`. -/
def Map3 : Type := ℕ → ℤ → ℤ → ℤ → ℝ

/-- Logistic sigmoid. -/
noncomputable def sigmoid (x : ℝ) : ℝ := 1 / (1 + Real.exp (-x))

/-- `nn.SiLU`. -/
noncomputable def silu (x : ℝ) : ℝ := x * sigmoid x

/-- Pointwise SiLU on a 2-d map. -/
noncomputable def siluMap2 (f : Map2) : Map2 := fun c y x => silu (f c y x)

/-- Pointwise SiLU on a 3-d volume. -/
noncomputable def siluMap3 (f : Map3) : Map3 :=
  fun c z y x => silu (f c z y x)

/-- Restrict a 2-d map to its live region `(C, H, W)`; reads outside are
`0` (torch zero padding). -/
def crop2 (C H W : ℕ) (f : Map2) : Map2 :=
  fun c y x =>
    if c < C ∧ 0 ≤ y ∧ y < (H : ℤ) ∧ 0 ≤ x ∧ x < (W : ℤ) then f c y x
    else 0

/-- Restrict a 3-d volume to its live region `(C, D, H, W)`. -/
def crop3 (C D H W : ℕ) (f : Map3) : Map3 :=
  fun c z y x =>
    if c < C ∧ 0 ≤ z ∧ z < (D : ℤ) ∧ 0 ≤ y ∧ y < (H : ℤ) ∧
        0 ≤ x ∧ x < (W : ℤ) then f c z y x
    else 0

/-- Weights of a 3×3 `nn.Conv2d` (padding 1, stride 1):
`weight[co][ci][ky][kx]`, `bias[co]`. -/
structure Conv2dW where
  weight : ℕ → ℕ → Fin 3 → Fin 3 → ℝ
  bias : ℕ → ℝ

/-- Weights of a 1×1 convolution applied to a broadcast embedding
(`nn.Conv2d(tdim, dim, 1, 1)` / `nn.Conv3d(tdim, dim, 1, 1)` on a
`(B, C, 1, 1[, 1])` tensor). -/
structure Conv1x1W where
  weight : ℕ → ℕ → ℝ
  bias : ℕ → ℝ

/-- Weights of `nn.GroupNorm(8, c)` (affine). -/
structure GroupNormW where
  gamma : ℕ → ℝ
  beta : ℕ → ℝ

/-- Weights of a 3×3×3 `nn.Conv3d` (padding 1): `weight[co][ci][kz][ky][kx]`. -/
structure Conv3dW where
  weight : ℕ → ℕ → Fin 3 → Fin 3 → Fin 3 → ℝ
  bias : ℕ → ℝ

/-- Weights of `nn.ConvTranspose3d(·, ·, 3, padding=1, output_padding=1,
stride=2)`: `weight[ci][co][kz][ky][kx]` (transposed layout). -/
structure ConvT3dW where
  weight : ℕ → ℕ → Fin 3 → Fin 3 → Fin 3 → ℝ
  bias : ℕ → ℝ

/-- 3×3 convolution with padding 1, stride 1 on a `(Cin, H, W)` map. -/
noncomputable def conv2d3x3 (Cin H W : ℕ) (p : Conv2dW) (f : Map2) : Map2 :=
  fun co y x =>
    p.bias co +
      ∑ ci ∈ Finset.range Cin, ∑ ky : Fin 3, ∑ kx : Fin 3,
        p.weight co ci ky kx *
          crop2 Cin H W f ci (y + (ky : ℕ) - 1) (x + (kx : ℕ) - 1)

/-- 1×1 convolution of a broadcast embedding: a linear map on channels. -/
noncomputable def conv1x1 (Cin : ℕ) (p : Conv1x1W) (t : Emb) : Emb :=
  fun co => p.bias co + ∑ ci ∈ Finset.range Cin, p.weight co ci * t ci

/-- `nn.GroupNorm(8, C)` on a `(C, H, W)` map (ε = 1e-5): normalize each
8-group of channels by its mean/variance over channels×space, then apply
the affine parameters. -/
noncomputable def groupNorm2 (C H W : ℕ) (p : GroupNormW) (f : Map2) : Map2 :=
  fun c y x =>
    let gs := C / 8
    let g := c / gs
    let n : ℝ := (gs * H * W : ℕ)
    let mean := (∑ cc ∈ Finset.range gs, ∑ yy ∈ Finset.range H,
      ∑ xx ∈ Finset.range W, f (g * gs + cc) (yy : ℕ) (xx : ℕ)) / n
    let var := (∑ cc ∈ Finset.range gs, ∑ yy ∈ Finset.range H,
      ∑ xx ∈ Finset.range W,
        (f (g * gs + cc) (yy : ℕ) (xx : ℕ) - mean) ^ 2) / n
    (f c y x - mean) / Real.sqrt (var + 1 / 100000) * p.gamma c + p.beta c

/-- `nn.GroupNorm(8, C)` on a `(C, D, H, W)` volume (ε = 1e-5). -/
noncomputable def groupNorm3 (C D H W : ℕ) (p : GroupNormW) (f : Map3) :
    Map3 :=
  fun c z y x =>
    let gs := C / 8
    let g := c / gs
    let n : ℝ := (gs * D * H * W : ℕ)
    let mean := (∑ cc ∈ Finset.range gs, ∑ zz ∈ Finset.range D,
      ∑ yy ∈ Finset.range H, ∑ xx ∈ Finset.range W,
        f (g * gs + cc) (zz : ℕ) (yy : ℕ) (xx : ℕ)) / n
    let var := (∑ cc ∈ Finset.range gs, ∑ zz ∈ Finset.range D,
      ∑ yy ∈ Finset.range H, ∑ xx ∈ Finset.range W,
        (f (g * gs + cc) (zz : ℕ) (yy : ℕ) (xx : ℕ) - mean) ^ 2) / n
    (f c z y x - mean) / Real.sqrt (var + 1 / 100000) * p.gamma c + p.beta c

/-- Broadcast-add an embedding onto every spatial location of a 2-d map
(torch broadcasting of `(B, C, 1, 1)` against `(B, C, H, W)`). -/
def addEmb2 (f : Map2) (e : Emb) : Map2 := fun c y x => f c y x + e c

/-- Broadcast-add an embedding onto every location of a 3-d volume. -/
def addEmb3 (f : Map3) (e : Emb) : Map3 := fun c z y x => f c z y x + e c

/-- Pointwise sum of two 3-d volumes (residual connections). -/
def add3 (f g : Map3) : Map3 := fun c z y x => f c z y x + g c z y x

/-- Stride-`s` 3×3×3 convolution with padding 1 on a `(Cin, D, H, W)`
volume. -/
noncomputable def conv3d3x3 (Cin D H W s : ℕ) (p : Conv3dW) (f : Map3) :
    Map3 :=
  fun co z y x =>
    p.bias co +
      ∑ ci ∈ Finset.range Cin, ∑ kz : Fin 3, ∑ ky : Fin 3, ∑ kx : Fin 3,
        p.weight co ci kz ky kx *
          crop3 Cin D H W f ci ((s : ℤ) * z + (kz : ℕ) - 1)
            ((s : ℤ) * y + (ky : ℕ) - 1) ((s : ℤ) * x + (kx : ℕ) - 1)

/-- Source index contributing to transposed-convolution output position `o`
through kernel offset `k` (stride 2, padding 1): the input position `i`
with `o = 2·i + k - 1`, when integral. -/
def upSrc (o k : ℤ) : Option ℤ :=
  if (o + 1 - k) % 2 = 0 then some ((o + 1 - k) / 2) else none

/-- `nn.ConvTranspose3d(·, ·, 3, padding=1, output_padding=1, stride=2)` on
a `(Cin, D, H, W)` volume (output spatial sizes are doubled). -/
noncomputable def convT3d (Cin D H W : ℕ) (p : ConvT3dW) (f : Map3) : Map3 :=
  fun co z y x =>
    p.bias co +
      ∑ ci ∈ Finset.range Cin, ∑ kz : Fin 3, ∑ ky : Fin 3, ∑ kx : Fin 3,
        match upSrc z (kz : ℕ), upSrc y (ky : ℕ), upSrc x (kx : ℕ) with
        | some iz, some iy, some ix =>
            p.weight ci co kz ky kx * crop3 Cin D H W f ci iz iy ix
        | _, _, _ => 0

/-! ### 2-d encoder (`Image2DResBlockWithTV`, `NoisyTargetViewEncoder`,
`View_feature_extractor_net.py` lines 5-49) -/

/-- Weights of `Image2DResBlockWithTV` (lines 5-21): the `time_embed` /
`view_embed` 1×1 convolutions and the `norm, silu, conv, norm, silu, conv`
stack. -/
structure Image2DResBlockWithTVW where
  time_embed : Conv1x1W
  view_embed : Conv1x1W
  norm0 : GroupNormW
  conv0 : Conv2dW
  norm1 : GroupNormW
  conv1 : Conv2dW

/-- `Image2DResBlockWithTV.forward` (line 21):
`x + conv(x + time_embed(t) + view_embed(v))`. -/
noncomputable def image2DResBlockWithTV (dim tdim vdim H W : ℕ)
    (p : Image2DResBlockWithTVW) (x : Map2) (t v : Emb) : Map2 :=
  let y0 := addEmb2 (addEmb2 x (conv1x1 tdim p.time_embed t))
    (conv1x1 vdim p.view_embed v)
  let y1 := conv2d3x3 dim H W p.conv0 (siluMap2 (groupNorm2 dim H W p.norm0 y0))
  let y2 := conv2d3x3 dim H W p.conv1 (siluMap2 (groupNorm2 dim H W p.norm1 y1))
  fun c yy xx => x c yy xx + y2 c yy xx

/-- Weights of `NoisyTargetViewEncoder` (lines 24-36). -/
structure NoisyTargetViewEncoderW where
  init_conv : Conv2dW
  out_conv0 : Image2DResBlockWithTVW
  out_conv1 : Image2DResBlockWithTVW
  out_conv2 : Image2DResBlockWithTVW
  final_norm : GroupNormW
  final_conv : Conv2dW

/-- `NoisyTargetViewEncoder.forward` (lines 38-49) on one batch slot: a
4-channel input map, three conditioned residual blocks at `run_dim = 16`
channels, and the final `GroupNorm, SiLU, Conv` head. -/
noncomputable def noisyTargetViewEncoder (tdim vdim H W : ℕ)
    (p : NoisyTargetViewEncoderW) (x : Map2) (t v : Emb) : Map2 :=
  let run_dim := 16
  let x1 := conv2d3x3 4 H W p.init_conv x
  let x2 := image2DResBlockWithTV run_dim tdim vdim H W p.out_conv0 x1 t v
  let x3 := image2DResBlockWithTV run_dim tdim vdim H W p.out_conv1 x2 t v
  let x4 := image2DResBlockWithTV run_dim tdim vdim H W p.out_conv2 x3 t v
  conv2d3x3 run_dim H W p.final_conv
    (siluMap2 (groupNorm2 run_dim H W p.final_norm x4))

/-! ### 3-d refinement networks (`SpatialTime3DNet`, `FrustumTV3DNet`,
`View_feature_extractor_net.py` lines 51-189) -/

/-- Weights of `SpatialTimeBlock` (lines 64-71). -/
structure SpatialTimeBlockW where
  t_conv : Conv1x1W
  bn : GroupNormW
  conv : Conv3dW

/-- `SpatialTimeBlock.forward` (lines 73-75) on a `(x_in, D, H, W)` volume:
`conv(silu(bn(x + t_conv(t))))` with stride `s`. -/
noncomputable def spatialTimeBlock (x_in t_in D H W s : ℕ)
    (p : SpatialTimeBlockW) (x : Map3) (t : Emb) : Map3 :=
  conv3d3x3 x_in D H W s p.conv
    (siluMap3 (groupNorm3 x_in D H W p.bn
      (addEmb3 x (conv1x1 t_in p.t_conv t))))

/-- Weights of `SpatialUpTimeBlock` (lines 51-58). -/
structure SpatialUpTimeBlockW where
  t_conv : Conv1x1W
  norm : GroupNormW
  conv : ConvT3dW

/-- `SpatialUpTimeBlock.forward` (lines 60-62):
`convT(silu(norm(x + t_conv(t))))`. -/
noncomputable def spatialUpTimeBlock (x_in t_in D H W : ℕ)
    (p : SpatialUpTimeBlockW) (x : Map3) (t : Emb) : Map3 :=
  convT3d x_in D H W p.conv
    (siluMap3 (groupNorm3 x_in D H W p.norm
      (addEmb3 x (conv1x1 t_in p.t_conv t))))

/-- Weights of `SpatialTime3DNet` (lines 78-101). -/
structure SpatialTime3DNetW where
  init_conv : Conv3dW
  conv0 : SpatialTimeBlockW
  conv1 : SpatialTimeBlockW
  conv2_0 : SpatialTimeBlockW
  conv2_1 : SpatialTimeBlockW
  conv3 : SpatialTimeBlockW
  conv4_0 : SpatialTimeBlockW
  conv4_1 : SpatialTimeBlockW
  conv5 : SpatialTimeBlockW
  conv6_0 : SpatialTimeBlockW
  conv6_1 : SpatialTimeBlockW
  conv7 : SpatialUpTimeBlockW
  conv8 : SpatialUpTimeBlockW
  conv9 : SpatialUpTimeBlockW

/-- `SpatialTime3DNet.forward` (lines 103-125) on a `(input_dim, V, V, V)`
volume with `dims = (d0, d1, d2, d3)`: encoder path with three stride-2
stages, decoder path with three transposed-convolution upsamplings and
skip connections. -/
noncomputable def spatialTime3DNet (input_dim tdim d0 d1 d2 d3 V : ℕ)
    (p : SpatialTime3DNetW) (x : Map3) (t : Emb) : Map3 :=
  let V1 := (V - 1) / 2 + 1
  let V2 := (V1 - 1) / 2 + 1
  let V3 := (V2 - 1) / 2 + 1
  let xin := conv3d3x3 input_dim V V V 1 p.init_conv x
  let conv0 := spatialTimeBlock d0 tdim V V V 1 p.conv0 xin t
  let a0 := spatialTimeBlock d0 tdim V V V 2 p.conv1 conv0 t
  let a1 := spatialTimeBlock d1 tdim V1 V1 V1 1 p.conv2_0 a0 t
  let conv2 := spatialTimeBlock d1 tdim V1 V1 V1 1 p.conv2_1 a1 t
  let b0 := spatialTimeBlock d1 tdim V1 V1 V1 2 p.conv3 conv2 t
  let b1 := spatialTimeBlock d2 tdim V2 V2 V2 1 p.conv4_0 b0 t
  let conv4 := spatialTimeBlock d2 tdim V2 V2 V2 1 p.conv4_1 b1 t
  let c0 := spatialTimeBlock d2 tdim V2 V2 V2 2 p.conv5 conv4 t
  let c1 := spatialTimeBlock d3 tdim V3 V3 V3 1 p.conv6_0 c0 t
  let c2 := spatialTimeBlock d3 tdim V3 V3 V3 1 p.conv6_1 c1 t
  let u0 := add3 conv4 (spatialUpTimeBlock d3 tdim V3 V3 V3 p.conv7 c2 t)
  let u1 := add3 conv2 (spatialUpTimeBlock d2 tdim V2 V2 V2 p.conv8 u0 t)
  add3 conv0 (spatialUpTimeBlock d1 tdim V1 V1 V1 p.conv9 u1 t)

/-- Weights of `FrustumTVBlock` (lines 127-135). -/
structure FrustumTVBlockW where
  t_conv : Conv1x1W
  v_conv : Conv1x1W
  bn : GroupNormW
  conv : Conv3dW

/-- `FrustumTVBlock.forward` (lines 137-139):
`conv(silu(bn(x + t_conv(t) + v_conv(v))))` with stride `s`. -/
noncomputable def frustumTVBlock (x_dim tdim vdim D H W s : ℕ)
    (p : FrustumTVBlockW) (x : Map3) (t v : Emb) : Map3 :=
  conv3d3x3 x_dim D H W s p.conv
    (siluMap3 (groupNorm3 x_dim D H W p.bn
      (addEmb3 (addEmb3 x (conv1x1 tdim p.t_conv t))
        (conv1x1 vdim p.v_conv v))))

/-- Weights of `FrustumTVUpBlock` (lines 141-149). -/
structure FrustumTVUpBlockW where
  t_conv : Conv1x1W
  v_conv : Conv1x1W
  norm : GroupNormW
  conv : ConvT3dW

/-- `FrustumTVUpBlock.forward` (lines 151-153). -/
noncomputable def frustumTVUpBlock (x_dim tdim vdim D H W : ℕ)
    (p : FrustumTVUpBlockW) (x : Map3) (t v : Emb) : Map3 :=
  convT3d x_dim D H W p.conv
    (siluMap3 (groupNorm3 x_dim D H W p.norm
      (addEmb3 (addEmb3 x (conv1x1 tdim p.t_conv t))
        (conv1x1 vdim p.v_conv v))))

/-- Weights of `FrustumTV3DNet` (lines 156-172). -/
structure FrustumTV3DNetW where
  conv0 : Conv3dW
  conv1 : FrustumTVBlockW
  conv2 : FrustumTVBlockW
  conv3 : FrustumTVBlockW
  conv4 : FrustumTVBlockW
  conv5 : FrustumTVBlockW
  conv6 : FrustumTVBlockW
  up0 : FrustumTVUpBlockW
  up1 : FrustumTVUpBlockW
  up2 : FrustumTVUpBlockW

/-- `FrustumTV3DNet.forward` (lines 174-189) on one batch slot, value
level: returns the Python dict `{w: x0, w//2: x1, w//4: x2, w//8: x3}` as
an association list of (width key, volume). -/
noncomputable def frustumTV3DNet (in_dim tdim vdim d0 d1 d2 d3 D H W : ℕ)
    (p : FrustumTV3DNetW) (x : Map3) (t v : Emb) : List (ℕ × Map3) :=
  let D1 := (D - 1) / 2 + 1
  let H1 := (H - 1) / 2 + 1
  let W1 := (W - 1) / 2 + 1
  let D2 := (D1 - 1) / 2 + 1
  let H2 := (H1 - 1) / 2 + 1
  let W2 := (W1 - 1) / 2 + 1
  let D3 := (D2 - 1) / 2 + 1
  let H3 := (H2 - 1) / 2 + 1
  let W3 := (W2 - 1) / 2 + 1
  let x0 := conv3d3x3 in_dim D H W 1 p.conv0 x
  let x1 := frustumTVBlock d1 tdim vdim D1 H1 W1 1 p.conv2
    (frustumTVBlock d0 tdim vdim D H W 2 p.conv1 x0 t v) t v
  let x2 := frustumTVBlock d2 tdim vdim D2 H2 W2 1 p.conv4
    (frustumTVBlock d1 tdim vdim D1 H1 W1 2 p.conv3 x1 t v) t v
  let x3 := frustumTVBlock d3 tdim vdim D3 H3 W3 1 p.conv6
    (frustumTVBlock d2 tdim vdim D2 H2 W2 2 p.conv5 x2 t v) t v
  let x2f := add3 (frustumTVUpBlock d3 tdim vdim D3 H3 W3 p.up0 x3 t v) x2
  let x1f := add3 (frustumTVUpBlock d2 tdim vdim D2 H2 W2 p.up1 x2f t v) x1
  let x0f := add3 (frustumTVUpBlock d1 tdim vdim D1 H1 W1 p.up2 x1f t v) x0
  pyramidDict W x0f x1f x2f x3

/-! ### Camera geometry and grid sampling -/

/-- A 3×3 camera intrinsic matrix. -/
abbrev Mat3 : Type := Matrix (Fin 3) (Fin 3) ℝ

/-- A 3-vector. -/
abbrev Vec3 : Type := Fin 3 → ℝ

/-- A `(3, 4)` world-to-camera extrinsic pose `[R | t]`. -/
structure Pose where
  R : Mat3
  t : Vec3

/-- Scale an intrinsic matrix to a reduced resolution:
`diag(ratio, ratio, 1) @ K` (as in `_init_multiview`, line 168, and the
feature-resolution rescaling of the warp projector). -/
noncomputable def scaleK (ratio : ℝ) (K : Mat3) : Mat3 :=
  Matrix.of fun i j => (if i = 2 then 1 else ratio) * K i j

/-- Bilinear sampling of a `(C, H, W)` map at a normalized coordinate
`(u, v) ∈ [-1, 1]²` (`F.grid_sample`, `mode='bilinear'`,
`padding_mode='zeros'`, `align_corners=True`). -/
noncomputable def bilinearSample (C H W : ℕ) (f : Map2) (c : ℕ)
    (u v : ℝ) : ℝ :=
  let px := (u + 1) / 2 * ((W : ℝ) - 1)
  let py := (v + 1) / 2 * ((H : ℝ) - 1)
  let x0 := ⌊px⌋
  let y0 := ⌊py⌋
  let wx := px - x0
  let wy := py - y0
  (1 - wy) * ((1 - wx) * crop2 C H W f c y0 x0 +
      wx * crop2 C H W f c y0 (x0 + 1)) +
    wy * ((1 - wx) * crop2 C H W f c (y0 + 1) x0 +
      wx * crop2 C H W f c (y0 + 1) (x0 + 1))

/-- Trilinear sampling of a `(C, D, H, W)` volume at a normalized
coordinate `(gx, gy, gz) ∈ [-1, 1]³` (`F.grid_sample` on 5-d input,
`padding_mode='zeros'`, `align_corners=True`; `gx` indexes the innermost
spatial axis). -/
noncomputable def trilinearSample (C D H W : ℕ) (f : Map3) (c : ℕ)
    (gx gy gz : ℝ) : ℝ :=
  let px := (gx + 1) / 2 * ((W : ℝ) - 1)
  let py := (gy + 1) / 2 * ((H : ℝ) - 1)
  let pz := (gz + 1) / 2 * ((D : ℝ) - 1)
  let x0 := ⌊px⌋
  let y0 := ⌊py⌋
  let z0 := ⌊pz⌋
  let wx := px - x0
  let wy := py - y0
  let wz := pz - z0
  (1 - wz) * ((1 - wy) * ((1 - wx) * crop3 C D H W f c z0 y0 x0 +
        wx * crop3 C D H W f c z0 y0 (x0 + 1)) +
      wy * ((1 - wx) * crop3 C D H W f c z0 (y0 + 1) x0 +
        wx * crop3 C D H W f c z0 (y0 + 1) (x0 + 1))) +
    wz * ((1 - wy) * ((1 - wx) * crop3 C D H W f c (z0 + 1) y0 x0 +
        wx * crop3 C D H W f c (z0 + 1) y0 (x0 + 1)) +
      wy * ((1 - wx) * crop3 C D H W f c (z0 + 1) (y0 + 1) x0 +
        wx * crop3 C D H W f c (z0 + 1) (y0 + 1) (x0 + 1)))

/-- Modelled from the spec: `get_warp_coordinates` (§4.1) is referenced by
`construct_spatial_volume` (line 70) but defined in no repository file.
Per the spec it maps a 3-d world point to normalized 2-d sampling
coordinates in `[-1, 1]` for a feature map of size `featSize` derived from
a full image of size `imgSize`: intrinsics are scaled by the downsampling
ratio, the point is taken to camera coordinates by the rigid pose, a
matrix multiply and perspective divide give pixel coordinates, and an
affine remap gives normalized device coordinates. -/
noncomputable def get_warp_coordinates (K : Mat3) (pose : Pose)
    (featSize imgSize : ℕ) (p : Vec3) : ℝ × ℝ :=
  let ratio := (featSize : ℝ) / (imgSize : ℝ)
  let cam := pose.R.mulVec p + pose.t
  let pix := (scaleK ratio K).mulVec cam
  let u := pix 0 / pix 2
  let v := pix 1 / pix 2
  (2 * u / ((featSize : ℝ) - 1) - 1, 2 * v / ((featSize : ℝ) - 1) - 1)

/-- Modelled from the spec: `create_target_volume` (§4.2) is referenced by
`construct_view_frustum_volume` (line 103) but defined in no repository
file.  Per the spec it produces, for one target camera, (a) the world-space
coordinates of every `(depth, height, width)` frustum grid cell and (b) the
depth of each cell along the optical axis: depth samples are linearly
spaced between the per-pixel near and far bounds, and each cell is the
unprojection of its pixel ray at that depth through the inverse camera
transform (scaled intrinsics inverse, then inverse rigid pose). -/
noncomputable def create_target_volume (D size imgSize : ℕ) (pose : Pose)
    (K : Mat3) (near far : ℤ → ℤ → ℝ) :
    (ℤ → ℤ → ℤ → Vec3) × (ℤ → ℤ → ℤ → ℝ) :=
  let ratio := (size : ℝ) / (imgSize : ℝ)
  let Ks := scaleK ratio K
  let depth := fun (d h w : ℤ) =>
    near h w + (far h w - near h w) * (d : ℝ) / ((D : ℝ) - 1)
  let xyz := fun (d h w : ℤ) =>
    let dep := depth d h w
    let pix : Vec3 := fun i =>
      if i = 0 then (w : ℝ) * dep else if i = 1 then (h : ℝ) * dep else dep
    let cam := Matrix.mulVec Ks⁻¹ pix
    Matrix.mulVec (Matrix.transpose pose.R) (cam - pose.t)
  (xyz, depth)

/-! ### `SpatialVolumeNet` methods, value level

The weight record mirrors `SpatialVolumeNet.__init__`
(`View_feature_extractor.py` lines 14-34): the per-view encoder
(`output_dim=16`), the spatial refinement net
(`input_dim=16·view_num, dims=(64,128,256,512)`) and the frustum
refinement net (`in_dim=64, dims=(64,128,256,512)`).  `get_warp_coordinates`
and `create_target_volume` are the spec-modelled helpers above.  Batched
tensors are indexed by `Fin`; the flattened `B*TN` slot axis of the source
is indexed row-major by `Fin B × Fin TN`. -/

/-- Learned parameters of `SpatialVolumeNet`. -/
structure SpatialVolumeNetW where
  target_encoder : NoisyTargetViewEncoderW
  spatial_volume_feats : SpatialTime3DNetW
  frustum_volume_feats : FrustumTV3DNetW

/-- `SpatialVolumeNet.construct_spatial_volume` (lines 36-80), value level:
build the canonical `V³` vertex grid over
`[-spatial_volume_length, spatial_volume_length]³` (axis reorder
`(2, 1, 0)` of the meshgrid, lines 49-52), encode each source view
(line 67), sample its feature map at the projected grid (lines 70-71),
concatenate the `N` per-view 16-channel volumes along channels
(lines 75-77) and refine with `SpatialTime3DNet` (line 79). -/
noncomputable def construct_spatial_volume {B N : ℕ} (w : SpatialVolumeNetW)
    (tdim vdim H W : ℕ)
    (x : Fin B → Fin N → Map2)
    (t_embed : Fin B → Emb) (v_embed : Fin B → Fin N → Emb)
    (target_poses : Fin N → Pose) (target_Ks : Fin N → Mat3) :
    Fin B → Map3 :=
  let V := spatial_volume_size
  let L : ℝ := ((spatial_volume_length : ℚ) : ℝ)
  let lin := fun (m : ℤ) => -L + 2 * L * (m : ℝ) / ((V : ℝ) - 1)
  let vert : ℤ → ℤ → ℤ → Vec3 := fun i j k =>
    fun a => if a = 0 then lin k else if a = 1 then lin j else lin i
  fun b =>
    let feats := fun (ni : Fin N) =>
      noisyTargetViewEncoder tdim vdim H W w.target_encoder (x b ni)
        (t_embed b) (v_embed b ni)
    let unproj := fun (ni : Fin N) (c : ℕ) (i j k : ℤ) =>
      let uv := get_warp_coordinates (target_Ks ni) (target_poses ni)
        W input_image_size (vert i j k)
      bilinearSample 16 H W (feats ni) c uv.1 uv.2
    let concat : Map3 := fun c i j k =>
      if h : c / 16 < N then unproj ⟨c / 16, h⟩ (c % 16) i j k else 0
    spatialTime3DNet (16 * N) tdim 64 128 256 512 V
      w.spatial_volume_feats concat (t_embed b)

/-- `SpatialVolumeNet.construct_view_frustum_volume` (lines 82-113), value
level: constant near/far planes (lines 97-98), per-slot pose/intrinsics
selection (lines 100-102), the spec-modelled frustum grid (line 103),
normalization by the spatial half-length and trilinear resampling of the
(batch-broadcast) spatial volume (lines 105-108), per-slot viewpoint/time
embedding gather (lines 110-111) and the `FrustumTV3DNet` pyramid
(line 112).  Returns (pyramid per slot, depth volume per slot). -/
noncomputable def construct_view_frustum_volume {B TN N : ℕ}
    (w : SpatialVolumeNetW) (tdim vdim : ℕ)
    (spatial_volume : Fin B → Map3)
    (t_embed : Fin B → Emb) (v_embed : Fin B → Fin N → Emb)
    (poses : Fin N → Pose) (Ks : Fin N → Mat3)
    (target_indices : Fin B → Fin TN → Fin N) :
    (Fin B → Fin TN → List (ℕ × Map3)) ×
      (Fin B → Fin TN → ℤ → ℤ → ℤ → ℝ) :=
  let HF := frustum_volume_size
  let WF := frustum_volume_size
  let D := frustum_volume_depth
  let V := spatial_volume_size
  let nearv : ℤ → ℤ → ℝ := fun _ _ =>
    1 * ((default_origin_depth : ℚ) : ℝ) - ((frustum_volume_length : ℚ) : ℝ)
  let farv : ℤ → ℤ → ℝ := fun _ _ =>
    1 * ((default_origin_depth : ℚ) : ℝ) + ((frustum_volume_length : ℚ) : ℝ)
  let per := fun (b : Fin B) (tn : Fin TN) =>
    let idx := target_indices b tn
    let ctv := create_target_volume D frustum_volume_size input_image_size
      (poses idx) (Ks idx) nearv farv
    let volume_xyz := ctv.1
    let volume_depth := ctv.2
    let volume_xyz_n := fun (d h ww : ℤ) (a : Fin 3) =>
      volume_xyz d h ww a / ((spatial_volume_length : ℚ) : ℝ)
    let volume_feats : Map3 := fun c d h ww =>
      trilinearSample 64 V V V (spatial_volume b) c
        (volume_xyz_n d h ww 0) (volume_xyz_n d h ww 1)
        (volume_xyz_n d h ww 2)
    (frustumTV3DNet 64 tdim vdim 64 128 256 512 D HF WF
        w.frustum_volume_feats volume_feats (t_embed b) (v_embed b idx),
      volume_depth)
  (fun b tn => (per b tn).1, fun b tn => (per b tn).2)

/-! ### Duplicate class copies (C9)

`View_feature_extractor.py` defines `SyncMultiviewDiffusion` twice
(lines 115-432 and 435-752) and `SpatialVolumeNet` appears both there
(lines 14-113) and in `View_feature_extractor_net.py` (lines 194-293); the
copies are textually identical.  The duplicates below embed the *second*
occurrence of each method, translated from its own source lines. -/

/-- The azimuth normalization of the second `SyncMultiviewDiffusion`
definition (`_init_multiview`, line 494). -/
noncomputable def normalizeAzimuthSnd (a : ℝ) : ℝ :=
  npFmod (a + Real.pi) (Real.pi * 2) - Real.pi

/-- `get_viewpoint_embedding` of the second `SyncMultiviewDiffusion`
definition (lines 498-516). -/
noncomputable def get_viewpoint_embeddingSnd {B n : ℕ}
    (azimuth : Fin (n + 1) → ℝ) (elevation_ref : Fin B → ℝ) :
    Fin B → Fin (n + 1) → ℝ × ℝ × ℝ × ℝ :=
  fun b i =>
    let azimuth_input := azimuth 0
    let azimuth_target := azimuth i
    let elevation_input := -(elevation_ref b)
    let elevation_target := -(deg2rad 30)
    let d_e := elevation_target - elevation_input
    let d_a := azimuth_target - azimuth_input
    (d_e, Real.sin d_a, Real.cos d_a, 0)

/-- `construct_spatial_volume` of the `SpatialVolumeNet` copy in
`View_feature_extractor_net.py` (lines 216-260). -/
noncomputable def construct_spatial_volumeNetCopy {B N : ℕ}
    (w : SpatialVolumeNetW) (tdim vdim H W : ℕ)
    (x : Fin B → Fin N → Map2)
    (t_embed : Fin B → Emb) (v_embed : Fin B → Fin N → Emb)
    (target_poses : Fin N → Pose) (target_Ks : Fin N → Mat3) :
    Fin B → Map3 :=
  let V := spatial_volume_size
  let L : ℝ := ((spatial_volume_length : ℚ) : ℝ)
  let lin := fun (m : ℤ) => -L + 2 * L * (m : ℝ) / ((V : ℝ) - 1)
  let vert : ℤ → ℤ → ℤ → Vec3 := fun i j k =>
    fun a => if a = 0 then lin k else if a = 1 then lin j else lin i
  fun b =>
    let feats := fun (ni : Fin N) =>
      noisyTargetViewEncoder tdim vdim H W w.target_encoder (x b ni)
        (t_embed b) (v_embed b ni)
    let unproj := fun (ni : Fin N) (c : ℕ) (i j k : ℤ) =>
      let uv := get_warp_coordinates (target_Ks ni) (target_poses ni)
        W input_image_size (vert i j k)
      bilinearSample 16 H W (feats ni) c uv.1 uv.2
    let concat : Map3 := fun c i j k =>
      if h : c / 16 < N then unproj ⟨c / 16, h⟩ (c % 16) i j k else 0
    spatialTime3DNet (16 * N) tdim 64 128 256 512 V
      w.spatial_volume_feats concat (t_embed b)

/-- `construct_view_frustum_volume` of the `SpatialVolumeNet` copy in
`View_feature_extractor_net.py` (lines 262-293). -/
noncomputable def construct_view_frustum_volumeNetCopy {B TN N : ℕ}
    (w : SpatialVolumeNetW) (tdim vdim : ℕ)
    (spatial_volume : Fin B → Map3)
    (t_embed : Fin B → Emb) (v_embed : Fin B → Fin N → Emb)
    (poses : Fin N → Pose) (Ks : Fin N → Mat3)
    (target_indices : Fin B → Fin TN → Fin N) :
    (Fin B → Fin TN → List (ℕ × Map3)) ×
      (Fin B → Fin TN → ℤ → ℤ → ℤ → ℝ) :=
  let HF := frustum_volume_size
  let WF := frustum_volume_size
  let D := frustum_volume_depth
  let V := spatial_volume_size
  let nearv : ℤ → ℤ → ℝ := fun _ _ =>
    1 * ((default_origin_depth : ℚ) : ℝ) - ((frustum_volume_length : ℚ) : ℝ)
  let farv : ℤ → ℤ → ℝ := fun _ _ =>
    1 * ((default_origin_depth : ℚ) : ℝ) + ((frustum_volume_length : ℚ) : ℝ)
  let per := fun (b : Fin B) (tn : Fin TN) =>
    let idx := target_indices b tn
    let ctv := create_target_volume D frustum_volume_size input_image_size
      (poses idx) (Ks idx) nearv farv
    let volume_xyz := ctv.1
    let volume_depth := ctv.2
    let volume_xyz_n := fun (d h ww : ℤ) (a : Fin 3) =>
      volume_xyz d h ww a / ((spatial_volume_length : ℚ) : ℝ)
    let volume_feats : Map3 := fun c d h ww =>
      trilinearSample 64 V V V (spatial_volume b) c
        (volume_xyz_n d h ww 0) (volume_xyz_n d h ww 1)
        (volume_xyz_n d h ww 2)
    (frustumTV3DNet 64 tdim vdim 64 128 256 512 D HF WF
        w.frustum_volume_feats volume_feats (t_embed b) (v_embed b idx),
      volume_depth)
  (fun b tn => (per b tn).1, fun b tn => (per b tn).2)

/-! ### Store model of the forward pass (C10)

Tensors live in a store of cells; every torch operation used by
`construct_spatial_volume` / `construct_view_frustum_volume` (`linspace`,
`meshgrid`/`stack`, `view`/`permute`/`repeat`, module forwards,
`grid_sample`, elementwise arithmetic, advanced indexing) is out-of-place:
it reads cells and allocates a fresh cell, never writing an existing one —
the source contains no in-place (`…_`) op and no attribute assignment.
Cell values are produced by the value-level functions above; here they are
abstracted to an arbitrary type `α` supplied by `mk`, since the frame
property is independent of the numbers computed. -/

/-- A store of tensor cells. -/
structure Store (α : Type) where
  cells : List α

/-- Allocate a fresh cell; returns the new store and the fresh
reference. -/
def alloc {α : Type} (s : Store α) (v : α) : Store α × ℕ :=
  (⟨s.cells ++ [v]⟩, s.cells.length)

/-- Read a cell. -/
def readCell {α : Type} (s : Store α) (r : ℕ) : Option α := s.cells.get? r

/-- `s'` extends `s`: all existing cells keep their values, new cells are
appended. -/
def StoreExtends {α : Type} (s s' : Store α) : Prop :=
  ∃ l, s'.cells = s.cells ++ l

/-- Append a sequence of fresh cells (the net effect of a sequence of
out-of-place allocations in order). -/
def allocSeq {α : Type} (vs : List α) (s : Store α) : Store α :=
  ⟨s.cells ++ vs⟩

/-- Cell values allocated by one iteration of the view loop of
`construct_spatial_volume` (lines 64-73): the encoder output (line 67), the
warp coordinates (line 70), the sampled features (line 71) and the reshaped
volume (line 72). -/
def spatialLoopAllocs {α : Type} (mk : ℕ → α) (ni : ℕ) : List α :=
  [mk (100 * ni), mk (100 * ni + 1), mk (100 * ni + 2), mk (100 * ni + 3)]

/-- Cell values allocated by `construct_spatial_volume` (lines 36-80), in
order: the vertex grid (lines 49-52, four tensors), the repeated embedding
and camera tables (lines 55-59, three tensors), the per-view loop
(lines 64-73), the stacked and reshaped feature volume (lines 75-77) and
the refined output of `SpatialTime3DNet` (line 79). -/
def construct_spatial_volume_allocs {α : Type} (mk : ℕ → α) (N : ℕ) :
    List α :=
  [mk 0, mk 1, mk 2, mk 3, mk 4, mk 5, mk 6]
    ++ (List.range N).flatMap (spatialLoopAllocs mk)
    ++ [mk 7, mk 8, mk 9]

/-- Store effects of `construct_spatial_volume`: every torch op allocates a
fresh cell, no existing cell is written.  Returns the final store and the
reference of the returned output tensor (the last allocation, line 79). -/
def construct_spatial_volume_effects {α : Type} (mk : ℕ → α) (N : ℕ)
    (s0 : Store α) : Store α × ℕ :=
  let s := allocSeq (construct_spatial_volume_allocs mk N) s0
  (s, s.cells.length - 1)

/-- Cell values allocated by `construct_view_frustum_volume`
(lines 82-113), in order: `near`/`far` (lines 97-98), the flattened index
tensor and the gathered pose/intrinsics rows (lines 100-102), the frustum
grid and its depth (line 103, offsets 5 and 6), the normalized and permuted
grid (lines 105-106), the broadcast spatial volume (line 107), the
resampled features (line 108), the gathered embeddings (lines 110-111) and
the four pyramid levels of `FrustumTV3DNet` (line 112, offsets 13-16). -/
def construct_view_frustum_volume_allocs {α : Type} (mk : ℕ → α) : List α :=
  [mk 0, mk 1, mk 2, mk 3, mk 4, mk 5, mk 6, mk 7, mk 8, mk 9, mk 10,
   mk 11, mk 12, mk 13, mk 14, mk 15, mk 16]

/-- Store effects of `construct_view_frustum_volume`: every torch op
allocates a fresh cell, no existing cell is written.  Returns the final
store and the references of the returned tensors: the four pyramid levels
(offsets 13-16) and the depth volume (offset 6, line 113). -/
def construct_view_frustum_volume_effects {α : Type} (mk : ℕ → α)
    (s0 : Store α) : Store α × List ℕ :=
  let base := s0.cells.length
  let s := allocSeq (construct_view_frustum_volume_allocs mk) s0
  (s, [base + 13, base + 14, base + 15, base + 16, base + 6])

/-! ### Concrete all-zero parameter instantiations

Used to instantiate universally quantified statements at a concrete
model. -/

/-- All-zero embedding. -/
def zeroEmb : Emb := fun _ => 0

/-- All-zero 2-d map. -/
def zeroMap2 : Map2 := fun _ _ _ => 0

/-- All-zero 3-d volume. -/
def zeroMap3 : Map3 := fun _ _ _ _ => 0

/-- All-zero pose. -/
def zeroPose : Pose := ⟨0, fun _ => 0⟩

/-- All-zero 1×1 convolution weights. -/
def zeroConv1x1W : Conv1x1W := ⟨fun _ _ => 0, fun _ => 0⟩

/-- All-zero 3×3 convolution weights. -/
def zeroConv2dW : Conv2dW := ⟨fun _ _ _ _ => 0, fun _ => 0⟩

/-- All-zero group-norm parameters. -/
def zeroGroupNormW : GroupNormW := ⟨fun _ => 0, fun _ => 0⟩

/-- All-zero 3×3×3 convolution weights. -/
def zeroConv3dW : Conv3dW := ⟨fun _ _ _ _ _ => 0, fun _ => 0⟩

/-- All-zero transposed-convolution weights. -/
def zeroConvT3dW : ConvT3dW := ⟨fun _ _ _ _ _ => 0, fun _ => 0⟩

/-- All-zero `Image2DResBlockWithTV` weights. -/
def zeroImage2DResBlockWithTVW : Image2DResBlockWithTVW :=
  ⟨zeroConv1x1W, zeroConv1x1W, zeroGroupNormW, zeroConv2dW,
   zeroGroupNormW, zeroConv2dW⟩

/-- All-zero `NoisyTargetViewEncoder` weights. -/
def zeroNoisyTargetViewEncoderW : NoisyTargetViewEncoderW :=
  ⟨zeroConv2dW, zeroImage2DResBlockWithTVW, zeroImage2DResBlockWithTVW,
   zeroImage2DResBlockWithTVW, zeroGroupNormW, zeroConv2dW⟩

/-- All-zero `SpatialTimeBlock` weights. -/
def zeroSpatialTimeBlockW : SpatialTimeBlockW :=
  ⟨zeroConv1x1W, zeroGroupNormW, zeroConv3dW⟩

/-- All-zero `SpatialUpTimeBlock` weights. -/
def zeroSpatialUpTimeBlockW : SpatialUpTimeBlockW :=
  ⟨zeroConv1x1W, zeroGroupNormW, zeroConvT3dW⟩

/-- All-zero `SpatialTime3DNet` weights. -/
def zeroSpatialTime3DNetW : SpatialTime3DNetW :=
  ⟨zeroConv3dW, zeroSpatialTimeBlockW, zeroSpatialTimeBlockW,
   zeroSpatialTimeBlockW, zeroSpatialTimeBlockW, zeroSpatialTimeBlockW,
   zeroSpatialTimeBlockW, zeroSpatialTimeBlockW, zeroSpatialTimeBlockW,
   zeroSpatialTimeBlockW, zeroSpatialTimeBlockW, zeroSpatialUpTimeBlockW,
   zeroSpatialUpTimeBlockW, zeroSpatialUpTimeBlockW⟩

/-- All-zero `FrustumTVBlock` weights. -/
def zeroFrustumTVBlockW : FrustumTVBlockW :=
  ⟨zeroConv1x1W, zeroConv1x1W, zeroGroupNormW, zeroConv3dW⟩

/-- All-zero `FrustumTVUpBlock` weights. -/
def zeroFrustumTVUpBlockW : FrustumTVUpBlockW :=
  ⟨zeroConv1x1W, zeroConv1x1W, zeroGroupNormW, zeroConvT3dW⟩

/-- All-zero `FrustumTV3DNet` weights. -/
def zeroFrustumTV3DNetW : FrustumTV3DNetW :=
  ⟨zeroConv3dW, zeroFrustumTVBlockW, zeroFrustumTVBlockW,
   zeroFrustumTVBlockW, zeroFrustumTVBlockW, zeroFrustumTVBlockW,
   zeroFrustumTVBlockW, zeroFrustumTVUpBlockW, zeroFrustumTVUpBlockW,
   zeroFrustumTVUpBlockW⟩

/-- All-zero `SpatialVolumeNet` parameters. -/
def zeroSpatialVolumeNetW : SpatialVolumeNetW :=
  ⟨zeroNoisyTargetViewEncoderW, zeroSpatialTime3DNetW, zeroFrustumTV3DNetW⟩

/-! # Theorems -/

/-! ## Helper lemmas -/

/-- `npFmod` as a scaled fractional part. -/
theorem npFmod_eq_fract (x b : ℝ) (hb : b ≠ 0) :
    npFmod x b = b * Int.fract (x / b) := by
  unfold npFmod Int.fract
  field_simp

/-- `npFmod` lands in `[0, b)` for positive modulus. -/
theorem npFmod_mem (x b : ℝ) (hb : 0 < b) :
    0 ≤ npFmod x b ∧ npFmod x b < b := by
  rw [npFmod_eq_fract x b (ne_of_gt hb)]
  constructor
  · exact mul_nonneg (le_of_lt hb) (Int.fract_nonneg _)
  · have h := Int.fract_lt_one (x / b)
    calc b * Int.fract (x / b) < b * 1 := by
          exact (mul_lt_mul_left hb).mpr h
      _ = b := mul_one b

/-! ## C6: near/far planes symmetric around the origin depth -/

/-- C6: every entry of the `near`/`far` tensors built by
`construct_view_frustum_volume` equals `1.5 - 0.86603` resp. `1.5 + 0.86603`;
the two planes are symmetric around the assumed origin depth `1.5`
(`(near + far) / 2 = default_origin_depth`) and satisfy `near < far`. -/
theorem near_far_planes_symmetric (BTN H W : ℕ) (i : Fin BTN) (j : Fin 1)
    (y : Fin H) (x : Fin W) :
    nearTensor BTN H W i j y x =
      default_origin_depth - frustum_volume_length ∧
    farTensor BTN H W i j y x =
      default_origin_depth + frustum_volume_length ∧
    (nearTensor BTN H W i j y x + farTensor BTN H W i j y x) / 2 =
      default_origin_depth ∧
    nearTensor BTN H W i j y x < farTensor BTN H W i j y x := by
  refine ⟨by simp [nearTensor], by simp [farTensor], ?_, ?_⟩
  · simp only [nearTensor, farTensor]; ring
  · simp only [nearTensor, farTensor, default_origin_depth, frustum_volume_length]
    norm_num

/-! ## C7: azimuth normalization -/

/-- C7: the azimuth normalization `a ↦ ((a + π) % (2π)) - π` of
`_init_multiview` maps every real azimuth into `[-π, π]`, the result is
congruent to the input modulo `2π`, and an input that is a multiple of `2π`
(as the loaded azimuth of view index 0 is) is mapped to `0`. -/
theorem normalizeAzimuth_spec (a : ℝ) :
    (-Real.pi ≤ normalizeAzimuth a ∧ normalizeAzimuth a ≤ Real.pi) ∧
    (∃ k : ℤ, a - normalizeAzimuth a = 2 * Real.pi * k) ∧
    (∀ k : ℤ, a = 2 * Real.pi * k → normalizeAzimuth a = 0) := by
  have hb : (0:ℝ) < Real.pi * 2 := by positivity
  have hmem := npFmod_mem (a + Real.pi) (Real.pi * 2) hb
  refine ⟨⟨?_, ?_⟩, ?_, ?_⟩
  · unfold normalizeAzimuth; linarith [hmem.1]
  · unfold normalizeAzimuth; linarith [hmem.2]
  · refine ⟨⌊(a + Real.pi) / (Real.pi * 2)⌋, ?_⟩
    unfold normalizeAzimuth npFmod
    ring
  · intro k hk
    have hpi := Real.pi_ne_zero
    have hdiv : (a + Real.pi) / (Real.pi * 2) = (k : ℝ) + 1 / 2 := by
      rw [hk]; field_simp; ring
    have hfloor : ⌊(a + Real.pi) / (Real.pi * 2)⌋ = k := by
      rw [hdiv]
      have h12 : ⌊(1 / 2 : ℝ)⌋ = 0 := by
        rw [Int.floor_eq_zero_iff]; constructor <;> norm_num
      rw [Int.floor_int_add, h12, add_zero]
    unfold normalizeAzimuth npFmod
    rw [hfloor, hk]
    ring

/-- Witness for C7 at the concrete input `0 = 2π·0`. -/
theorem normalizeAzimuth_spec_witness :
    (0 : ℝ) = 2 * Real.pi * ((0 : ℤ) : ℝ) ∧ normalizeAzimuth 0 = 0 :=
  ⟨by simp, (normalizeAzimuth_spec 0).2.2 0 (by simp)⟩

/-! ## C4: viewpoint embedding components -/

/-- C4: every entry of the `(B, N, 4)` viewpoint-embedding tensor has last
component `0`, and for view index 0 with reference elevation equal to the
fixed target elevation of 30 degrees the entry is `(0, sin 0 = 0, cos 0 = 1,
0)`. -/
theorem viewpoint_embedding_components {B n : ℕ}
    (azimuth : Fin (n + 1) → ℝ) (elevation_ref : Fin B → ℝ) (b : Fin B) :
    (∀ i, (get_viewpoint_embedding azimuth elevation_ref b i).2.2.2 = 0) ∧
    (elevation_ref b = deg2rad 30 →
      get_viewpoint_embedding azimuth elevation_ref b 0 = (0, 0, 1, 0)) := by
  constructor
  · intro i; rfl
  · intro h
    unfold get_viewpoint_embedding
    simp only [h]
    have h1 : -(deg2rad 30) - -(deg2rad 30) = 0 := by ring
    have h2 : azimuth 0 - azimuth 0 = 0 := by ring
    simp only [h1, h2, Real.sin_zero, Real.cos_zero]

/-- Witness for C4: one view, reference elevation exactly 30 degrees. -/
theorem viewpoint_embedding_components_witness :
    ((fun _ : Fin 1 => deg2rad 30) (0 : Fin 1) = deg2rad 30) ∧
    (∀ i, (get_viewpoint_embedding (fun _ : Fin 1 => (0:ℝ))
      (fun _ : Fin 1 => deg2rad 30) 0 i).2.2.2 = 0) ∧
    get_viewpoint_embedding (fun _ : Fin 1 => (0:ℝ))
      (fun _ : Fin 1 => deg2rad 30) 0 0 = (0, 0, 1, 0) := by
  have h := viewpoint_embedding_components
    (fun _ : Fin 1 => (0:ℝ)) (fun _ : Fin 1 => deg2rad 30) 0
  exact ⟨rfl, h.1, h.2 rfl⟩

/-! ## C5: index selection contract -/

/-- Gathering with all indices in `[0, N)` succeeds. -/
theorem torchGather_ok {α : Type} (table : List α) (idxs : List ℤ)
    (h : ∀ i ∈ idxs, 0 ≤ i ∧ i < (table.length : ℤ)) :
    ∃ l, torchGather table idxs = .ok l := by
  induction idxs with
  | nil => exact ⟨[], rfl⟩
  | cons a l ih =>
    obtain ⟨tl, htl⟩ := ih (fun i hi => h i (List.mem_cons_of_mem a hi))
    have ha := h a (List.mem_cons_self a l)
    have hhead : torchIndex table a = .ok (table.get ⟨a.toNat, by omega⟩) := by
      unfold torchIndex
      rw [dif_pos ha]
    refine ⟨table.get ⟨a.toNat, by omega⟩ :: tl, ?_⟩
    simp only [torchGather, hhead, htl]
    rfl

/-- C5: `construct_view_frustum_volume` validates nothing itself: with every
target index in `[0, N)` (`N` = number of stored poses, and the intrinsics
table has the same length) the pose/intrinsics gather of lines 100-102
succeeds, while the out-of-range index `N` makes it fail with the runtime's
generic `IndexError`, not a custom error. -/
theorem frustum_index_selection_contract {α β : Type}
    (poses : List α) (Ks : List β) (idxs : List ℤ)
    (hlen : Ks.length = poses.length)
    (hin : ∀ i ∈ idxs, 0 ≤ i ∧ i < (poses.length : ℤ)) :
    (∃ out, selectPosesKs poses Ks idxs = .ok out) ∧
    selectPosesKs poses Ks [(poses.length : ℤ)] = .error .indexError := by
  constructor
  · obtain ⟨lp, hlp⟩ := torchGather_ok poses idxs hin
    obtain ⟨lk, hlk⟩ := torchGather_ok Ks idxs (by rw [hlen]; exact hin)
    exact ⟨(lp, lk), by unfold selectPosesKs; rw [hlp, hlk]; rfl⟩
  · have herr : torchIndex poses (poses.length : ℤ) = .error .indexError := by
      unfold torchIndex
      rw [dif_neg (by omega), dif_neg (by omega)]
    simp only [selectPosesKs, torchGather, herr]
    rfl

/-- Witness for C5 with one stored pose and the in-range index list `[0]`. -/
theorem frustum_index_selection_contract_witness :
    ([(0:ℕ)].length = [(7:ℕ)].length) ∧
    (∀ i ∈ [(0:ℤ)], 0 ≤ i ∧ i < (([(7:ℕ)]).length : ℤ)) ∧
    (∃ out, selectPosesKs [(7:ℕ)] [(0:ℕ)] [(0:ℤ)] = .ok out) ∧
    selectPosesKs [(7:ℕ)] [(0:ℕ)] [(([(7:ℕ)]).length : ℤ)] =
      .error .indexError := by
  have h := frustum_index_selection_contract [(7:ℕ)] [(0:ℕ)] [(0:ℤ)]
    (by rfl) (by decide)
  exact ⟨rfl, by decide, h.1, h.2⟩

/-! ## C2: undefined helpers always raise `NameError` -/

/-- A failing loop body makes the whole `range(N)` loop fail for `N ≥ 1`. -/
theorem pythonRangeLoop_error (body : Except PyErr Unit) (e : PyErr) (M : ℕ)
    (hbody : body = .error e) :
    pythonRangeLoop body (M + 1) = .error e := by
  simp only [pythonRangeLoop, hbody]
  rfl

/-- C2: `get_warp_coordinates` and `create_target_volume` are bound in no
module of the repository, so `construct_spatial_volume` (with at least one
source view) stops with `NameError: get_warp_coordinates` and
`construct_view_frustum_volume` stops with `NameError: create_target_volume`
— in both copies of `SpatialVolumeNet` — and neither ever returns
normally. -/
theorem undefined_helpers_raise_name_error (N : ℕ) (hN : 1 ≤ N) :
    ("get_warp_coordinates" ∉ globalsViewFeatureExtractor ∧
     "get_warp_coordinates" ∉ globalsViewFeatureExtractorNet ∧
     "get_warp_coordinates" ∉ globalsGriddleZooConfigs ∧
     "create_target_volume" ∉ globalsViewFeatureExtractor ∧
     "create_target_volume" ∉ globalsViewFeatureExtractorNet ∧
     "create_target_volume" ∉ globalsGriddleZooConfigs) ∧
    construct_spatial_volume_names globalsViewFeatureExtractor N =
      .error (.nameError "get_warp_coordinates") ∧
    construct_spatial_volume_names globalsViewFeatureExtractorNet N =
      .error (.nameError "get_warp_coordinates") ∧
    construct_view_frustum_volume_names globalsViewFeatureExtractor =
      .error (.nameError "create_target_volume") ∧
    construct_view_frustum_volume_names globalsViewFeatureExtractorNet =
      .error (.nameError "create_target_volume") := by
  obtain ⟨M, rfl⟩ : ∃ M, N = M + 1 := ⟨N - 1, by omega⟩
  refine ⟨by decide, ?_, ?_, by rfl, by rfl⟩
  · have hbody : spatialLoopBody globalsViewFeatureExtractor =
        .error (.nameError "get_warp_coordinates") := by rfl
    unfold construct_spatial_volume_names
    simp only [pythonRangeLoop_error _ _ M hbody]
    rfl
  · have hbody : spatialLoopBody globalsViewFeatureExtractorNet =
        .error (.nameError "get_warp_coordinates") := by rfl
    unfold construct_spatial_volume_names
    simp only [pythonRangeLoop_error _ _ M hbody]
    rfl

/-- Witness for C2 at `N = 1` source view. -/
theorem undefined_helpers_raise_name_error_witness :
    1 ≤ 1 ∧
    construct_spatial_volume_names globalsViewFeatureExtractor 1 =
      .error (.nameError "get_warp_coordinates") ∧
    construct_view_frustum_volume_names globalsViewFeatureExtractorNet =
      .error (.nameError "create_target_volume") := by
  have h := undefined_helpers_raise_name_error 1 (by decide)
  exact ⟨by decide, h.2.1, h.2.2.2.2⟩

/-! ## C1: frustum feature pyramid shape -/

/-- A successful 3×3×3 convolution forces the configured output channels and
a nonempty input width. -/
theorem conv3dShape_some {cin cout s : ℕ} {x y : Shape5}
    (h : conv3dShape cin cout s x = some y) : y.c = cout ∧ 1 ≤ x.w := by
  unfold conv3dShape at h
  split at h
  · simp only [Option.bind_eq_bind, Option.bind_eq_some] at h
    obtain ⟨d, hd, hh, hhh, w, hw, h⟩ := h
    unfold convOut at hw
    split at hw
    · rename_i hcond
      simp only [Option.pure_def, Option.some.injEq] at h
      subst h
      exact ⟨rfl, hcond.1⟩
    · exact Option.noConfusion hw
  · exact Option.noConfusion h

/-- A successful `FrustumTVBlock` forward forces the configured output
channels. -/
theorem frustumTVBlockShape_some {x_dim t_dim v_dim out_dim s : ℕ}
    {x te ve y : Shape5}
    (h : frustumTVBlockShape x_dim t_dim v_dim out_dim s x te ve = some y) :
    y.c = out_dim := by
  unfold frustumTVBlockShape at h
  simp only [Option.bind_eq_bind, Option.bind_eq_some] at h
  obtain ⟨t1, ht1, v1, hv1, x1, hx1, x2, hx2, x3, hx3, hc⟩ := h
  exact (conv3dShape_some hc).1

/-- A successful transposed convolution forces the configured output
channels. -/
theorem convT3dShape_some {cin cout : ℕ} {x y : Shape5}
    (h : convT3dShape cin cout x = some y) : y.c = cout := by
  unfold convT3dShape at h
  split at h
  · simp only [Option.bind_eq_bind, Option.bind_eq_some] at h
    obtain ⟨d, hd, hh, hhh, w, hw, h⟩ := h
    simp only [Option.pure_def, Option.some.injEq] at h
    subst h
    rfl
  · exact Option.noConfusion h

/-- A successful `FrustumTVUpBlock` forward forces the configured output
channels. -/
theorem frustumTVUpBlockShape_some {x_dim t_dim v_dim out_dim : ℕ}
    {x te ve y : Shape5}
    (h : frustumTVUpBlockShape x_dim t_dim v_dim out_dim x te ve = some y) :
    y.c = out_dim := by
  unfold frustumTVUpBlockShape at h
  simp only [Option.bind_eq_bind, Option.bind_eq_some] at h
  obtain ⟨t1, ht1, v1, hv1, x1, hx1, x2, hx2, x3, hx3, hc⟩ := h
  exact convT3dShape_some hc

/-- Channel dimension of a successful broadcast. -/
theorem bcastShape_c {s t u : Shape5} (h : bcastShape s t = some u) :
    bcastDim s.c t.c = some u.c := by
  unfold bcastShape at h
  simp only [Option.bind_eq_bind, Option.bind_eq_some] at h
  obtain ⟨b, hb, c, hc, d, hd, hh, hhh, w, hw, h⟩ := h
  simp only [Option.pure_def, Option.some.injEq] at h
  subst h
  exact hc

/-- Broadcasting equal sizes. -/
theorem bcastDim_self (a : ℕ) : bcastDim a a = some a := by
  simp [bcastDim]

/-- With pairwise-distinct widths (guaranteed by `8 ∣ w`, `1 ≤ w`) the dict
literal `{w: x0, w//2: x1, w//4: x2, w//8: x3}` is the four-entry
association list in insertion order. -/
theorem pyramidDict_distinct {α : Type} (w : ℕ) (h8 : 8 ∣ w) (h1 : 1 ≤ w)
    (x0 x1 x2 x3 : α) :
    pyramidDict w x0 x1 x2 x3 =
      [(w, x0), (w / 2, x1), (w / 4, x2), (w / 8, x3)] := by
  obtain ⟨k, rfl⟩ := h8
  have hk : 1 ≤ k := by omega
  have e2 : 8 * k / 2 = 4 * k := by omega
  have e4 : 8 * k / 4 = 2 * k := by omega
  have e8 : 8 * k / 8 = k := by omega
  have n1 : ¬(8 * k = 4 * k) := by omega
  have n2 : ¬(8 * k = 2 * k) := by omega
  have n3 : ¬(4 * k = 2 * k) := by omega
  have n4 : ¬(8 * k = k) := by omega
  have n5 : ¬(4 * k = k) := by omega
  have n6 : ¬(2 * k = k) := by omega
  simp [pyramidDict, dictInsert, e2, e4, e8, n1, n2, n3, n4, n5, n6]

/-- C1 (amended): for an input volume `(B, C, D, H, W)` with `8 ∣ W`, a
successful `FrustumTV3DNet.forward` returns a pyramid of exactly 4 levels
keyed by the widths `W, W/2, W/4, W/8`, whose channel counts are the four
per-level configured dimensions `d0, d1, d2, d3` — not a single shared
output dimension — for every batch size and embedding width. -/
theorem frustum_pyramid_keys_and_channels
    (in_dim t_dim v_dim B C D H W tdim vdim d0 d1 d2 d3 : ℕ)
    (pyr : List (ℕ × Shape5)) (h8 : 8 ∣ W)
    (hrun : frustumTV3DNetShape in_dim t_dim v_dim (d0, d1, d2, d3)
      ⟨B, C, D, H, W⟩ tdim vdim = some pyr) :
    pyr.map Prod.fst = [W, W / 2, W / 4, W / 8] ∧
    pyr.map (fun p => p.2.c) = [d0, d1, d2, d3] ∧
    pyr.length = 4 := by
  simp only [frustumTV3DNetShape, Option.bind_eq_bind, Option.bind_eq_some]
    at hrun
  obtain ⟨x0, hx0, x1a, hx1a, x1, hx1, x2a, hx2a, x2, hx2, x3a, hx3a,
    x3, hx3, u2, hu2, x2f, hx2f, u1, hu1, x1f, hx1f, u0, hu0, x0f, hx0f,
    hpyr⟩ := hrun
  simp only [Option.pure_def, Option.some.injEq] at hpyr
  have hW1 : 1 ≤ W := (conv3dShape_some hx0).2
  have hc0 : x0.c = d0 := (conv3dShape_some hx0).1
  have hc1 : x1.c = d1 := frustumTVBlockShape_some hx1
  have hc2 : x2.c = d2 := frustumTVBlockShape_some hx2
  have hc3 : x3.c = d3 := frustumTVBlockShape_some hx3
  have hcu2 : u2.c = d2 := frustumTVUpBlockShape_some hu2
  have hcx2f : x2f.c = d2 := by
    have h := bcastShape_c hx2f
    rw [hcu2, hc2, bcastDim_self] at h
    exact (Option.some.injEq _ _).mp h |>.symm
  have hcu1 : u1.c = d1 := frustumTVUpBlockShape_some hu1
  have hcx1f : x1f.c = d1 := by
    have h := bcastShape_c hx1f
    rw [hcu1, hc1, bcastDim_self] at h
    exact (Option.some.injEq _ _).mp h |>.symm
  have hcu0 : u0.c = d0 := frustumTVUpBlockShape_some hu0
  have hcx0f : x0f.c = d0 := by
    have h := bcastShape_c hx0f
    rw [hcu0, hc0, bcastDim_self] at h
    exact (Option.some.injEq _ _).mp h |>.symm
  subst hpyr
  rw [pyramidDict_distinct W h8 hW1]
  simp [hcx0f, hcx1f, hcx2f, hc3]

/-- Witness for C1 (amended) at the repository configuration: input volume
`(1, 64, 48, 32, 32)`, `FrustumTV3DNet(64, 256, 4, dims=(64,128,256,512))`. -/
theorem frustum_pyramid_keys_and_channels_witness :
    (8 ∣ 32) ∧
    ([(32, (⟨1, 64, 48, 32, 32⟩ : Shape5)), (16, ⟨1, 128, 24, 16, 16⟩),
      (8, ⟨1, 256, 12, 8, 8⟩), (4, ⟨1, 512, 6, 4, 4⟩)].map Prod.fst =
        [32, 32 / 2, 32 / 4, 32 / 8] ∧
     [(32, (⟨1, 64, 48, 32, 32⟩ : Shape5)), (16, ⟨1, 128, 24, 16, 16⟩),
      (8, ⟨1, 256, 12, 8, 8⟩), (4, ⟨1, 512, 6, 4, 4⟩)].map
        (fun p => p.2.c) = [64, 128, 256, 512] ∧
     ([(32, (⟨1, 64, 48, 32, 32⟩ : Shape5)), (16, ⟨1, 128, 24, 16, 16⟩),
      (8, ⟨1, 256, 12, 8, 8⟩), (4, ⟨1, 512, 6, 4, 4⟩)] :
        List (ℕ × Shape5)).length = 4) :=
  ⟨by decide,
   frustum_pyramid_keys_and_channels 64 256 4 1 64 48 32 32 256 4
     64 128 256 512 _ (by decide) (by decide)⟩

/-- Counterexample to C1 as stated: at the repository configuration the four
pyramid levels have channel counts 64, 128, 256 and 512 — no single
"configured output dimension" equals every level's channel count. -/
theorem frustum_pyramid_channels_nonuniform :
    frustum_volume_feats_shape 256 4 ⟨1, 64, 48, 32, 32⟩ 256 4 =
      some [(32, ⟨1, 64, 48, 32, 32⟩), (16, ⟨1, 128, 24, 16, 16⟩),
            (8, ⟨1, 256, 12, 8, 8⟩), (4, ⟨1, 512, 6, 4, 4⟩)] ∧
    ¬ ∃ c : ℕ, ∀ p ∈ ([(32, (⟨1, 64, 48, 32, 32⟩ : Shape5)),
            (16, ⟨1, 128, 24, 16, 16⟩), (8, ⟨1, 256, 12, 8, 8⟩),
            (4, ⟨1, 512, 6, 4, 4⟩)] : List (ℕ × Shape5)), p.2.c = c := by
  constructor
  · decide
  · rintro ⟨c, hc⟩
    have h1 : (64 : ℕ) = c := hc (32, ⟨1, 64, 48, 32, 32⟩) (by simp)
    have h2 : (128 : ℕ) = c := hc (16, ⟨1, 128, 24, 16, 16⟩) (by simp)
    omega

/-! ## C3: determinism under repeated target indices -/

/-- C3: with batch size 1 and fixed spatial volume, timestep embedding,
viewpoint embeddings and camera metadata, requesting target indices
`[[0, 0]]` yields two per-target feature pyramids that are both equal to
the single pyramid produced for `[[0]]` (and likewise for the returned
depth volumes): the per-slot computation depends only on the batch element
and the selected index value. -/
theorem frustum_duplicate_target_indices {n : ℕ} (w : SpatialVolumeNetW)
    (tdim vdim : ℕ) (spatial_volume : Fin 1 → Map3) (t_embed : Fin 1 → Emb)
    (v_embed : Fin 1 → Fin (n + 1) → Emb) (poses : Fin (n + 1) → Pose)
    (Ks : Fin (n + 1) → Mat3) :
    ((construct_view_frustum_volume w tdim vdim spatial_volume t_embed
        v_embed poses Ks (fun (_ : Fin 1) (_ : Fin 2) => 0)).1 0 0 =
      (construct_view_frustum_volume w tdim vdim spatial_volume t_embed
        v_embed poses Ks (fun (_ : Fin 1) (_ : Fin 2) => 0)).1 0 1) ∧
    ((construct_view_frustum_volume w tdim vdim spatial_volume t_embed
        v_embed poses Ks (fun (_ : Fin 1) (_ : Fin 2) => 0)).1 0 0 =
      (construct_view_frustum_volume w tdim vdim spatial_volume t_embed
        v_embed poses Ks (fun (_ : Fin 1) (_ : Fin 1) => 0)).1 0 0) ∧
    ((construct_view_frustum_volume w tdim vdim spatial_volume t_embed
        v_embed poses Ks (fun (_ : Fin 1) (_ : Fin 2) => 0)).2 0 0 =
      (construct_view_frustum_volume w tdim vdim spatial_volume t_embed
        v_embed poses Ks (fun (_ : Fin 1) (_ : Fin 2) => 0)).2 0 1) ∧
    ((construct_view_frustum_volume w tdim vdim spatial_volume t_embed
        v_embed poses Ks (fun (_ : Fin 1) (_ : Fin 2) => 0)).2 0 0 =
      (construct_view_frustum_volume w tdim vdim spatial_volume t_embed
        v_embed poses Ks (fun (_ : Fin 1) (_ : Fin 1) => 0)).2 0 0) :=
  ⟨rfl, rfl, rfl, rfl⟩

/-! ## C8: determinism of `construct_spatial_volume` -/

/-- C8: two calls of `construct_spatial_volume` with equal latent images,
timestep embedding, viewpoint embeddings, camera poses/intrinsics and
network parameters return equal refined spatial volumes — the function is a
pure function of these inputs and introduces no randomness of its own. -/
theorem construct_spatial_volume_deterministic {B N : ℕ}
    (w w' : SpatialVolumeNetW) (tdim vdim H W : ℕ)
    (x x' : Fin B → Fin N → Map2) (t t' : Fin B → Emb)
    (v v' : Fin B → Fin N → Emb) (poses poses' : Fin N → Pose)
    (Ks Ks' : Fin N → Mat3)
    (hw : w = w') (hx : x = x') (ht : t = t') (hv : v = v')
    (hp : poses = poses') (hk : Ks = Ks') :
    construct_spatial_volume w tdim vdim H W x t v poses Ks =
      construct_spatial_volume w' tdim vdim H W x' t' v' poses' Ks' := by
  subst hw hx ht hv hp hk
  rfl

/-- Witness for C8 at the all-zero model with one view and one batch
element. -/
theorem construct_spatial_volume_deterministic_witness :
    zeroSpatialVolumeNetW = zeroSpatialVolumeNetW ∧
    construct_spatial_volume zeroSpatialVolumeNetW 256 4 32 32
        (fun (_ : Fin 1) (_ : Fin 1) => zeroMap2) (fun _ => zeroEmb)
        (fun _ _ => zeroEmb) (fun _ => zeroPose) (fun _ => (0 : Mat3)) =
      construct_spatial_volume zeroSpatialVolumeNetW 256 4 32 32
        (fun (_ : Fin 1) (_ : Fin 1) => zeroMap2) (fun _ => zeroEmb)
        (fun _ _ => zeroEmb) (fun _ => zeroPose) (fun _ => (0 : Mat3)) :=
  ⟨rfl,
   construct_spatial_volume_deterministic zeroSpatialVolumeNetW
     zeroSpatialVolumeNetW 256 4 32 32
     (fun _ _ => zeroMap2) (fun _ _ => zeroMap2) (fun _ => zeroEmb)
     (fun _ => zeroEmb) (fun _ _ => zeroEmb) (fun _ _ => zeroEmb)
     (fun _ => zeroPose) (fun _ => zeroPose) (fun _ => (0 : Mat3))
     (fun _ => (0 : Mat3)) rfl rfl rfl rfl rfl rfl⟩

/-! ## C9: the duplicated class definitions are equivalent -/

/-- C9: the second (shadowing) top-level definition of
`SyncMultiviewDiffusion` in `View_feature_extractor.py` (lines 435-752) and
the `SpatialVolumeNet` copy in `View_feature_extractor_net.py`
(lines 194-293) are verbatim duplicates of the first definitions; the
embedded methods of the second copies — azimuth normalization, viewpoint
embedding, spatial-volume construction and frustum-volume construction —
denote exactly the same functions as those of the first copies. -/
theorem duplicate_definitions_equivalent :
    @normalizeAzimuthSnd = @normalizeAzimuth ∧
    @get_viewpoint_embeddingSnd = @get_viewpoint_embedding ∧
    @construct_spatial_volumeNetCopy = @construct_spatial_volume ∧
    @construct_view_frustum_volumeNetCopy = @construct_view_frustum_volume :=
  ⟨rfl, rfl, rfl, rfl⟩

/-! ## C10: forward passes leave long-lived state unchanged -/

/-- C10: in the store model of the two forward methods, every cell existing
before the call — learned parameter tensors, camera metadata buffers and
the input tensors themselves — holds exactly the same value afterwards, and
every returned tensor (the refined spatial volume; the four pyramid levels
and the depth volume) is a freshly allocated cell. -/
theorem forward_passes_preserve_state {α : Type} (mk : ℕ → α) (N : ℕ)
    (s0 : Store α) (r : ℕ) (h : r < s0.cells.length) :
    readCell (construct_spatial_volume_effects mk N s0).1 r =
      readCell s0 r ∧
    s0.cells.length ≤ (construct_spatial_volume_effects mk N s0).2 ∧
    readCell (construct_view_frustum_volume_effects mk s0).1 r =
      readCell s0 r ∧
    (∀ o ∈ (construct_view_frustum_volume_effects mk s0).2,
      s0.cells.length ≤ o) := by
  refine ⟨?_, ?_, ?_, ?_⟩
  · simp only [construct_spatial_volume_effects, allocSeq, readCell]
    rw [List.get?_eq_getElem?, List.get?_eq_getElem?]
    exact List.getElem?_append_left h
  · simp only [construct_spatial_volume_effects, allocSeq,
      construct_spatial_volume_allocs]
    simp [List.length_append]
  · simp only [construct_view_frustum_volume_effects, allocSeq, readCell]
    rw [List.get?_eq_getElem?, List.get?_eq_getElem?]
    exact List.getElem?_append_left h
  · intro o ho
    simp only [construct_view_frustum_volume_effects] at ho
    simp only [List.mem_cons, List.not_mem_nil, or_false] at ho
    rcases ho with rfl | rfl | rfl | rfl | rfl <;> omega

/-- Witness for C10: a one-cell store, reading back the pre-existing
cell. -/
theorem forward_passes_preserve_state_witness :
    0 < (Store.mk [(5 : ℕ)]).cells.length ∧
    readCell (construct_spatial_volume_effects (fun _ => 0) 1
        (Store.mk [(5 : ℕ)])).1 0 = readCell (Store.mk [(5 : ℕ)]) 0 ∧
    (Store.mk [(5 : ℕ)]).cells.length ≤
      (construct_spatial_volume_effects (fun _ => 0) 1
        (Store.mk [(5 : ℕ)])).2 ∧
    readCell (construct_view_frustum_volume_effects (fun _ => 0)
        (Store.mk [(5 : ℕ)])).1 0 = readCell (Store.mk [(5 : ℕ)]) 0 ∧
    (∀ o ∈ (construct_view_frustum_volume_effects (fun _ => 0)
        (Store.mk [(5 : ℕ)])).2, (Store.mk [(5 : ℕ)]).cells.length ≤ o) := by
  have h := forward_passes_preserve_state (fun _ => (0 : ℕ)) 1
    (Store.mk [(5 : ℕ)]) 0 (by decide)
  exact ⟨by decide, h.1, h.2.1, h.2.2.1, h.2.2.2⟩

end PoseDiffusion
